/-
  Verification of the bug-gang task tracker.

  Shallow embedding of:
  - the in-memory Task Store and View Controller of
    src/app/(tabs)/tasks.tsx (identical logic in tasks-simple.tsx):
    addTask, moveTask, groupedTasks, and the PanResponder release handler;
  - the persistence adapter of src/services/SQLiteService.ts:
    initializeDatabase, seedInitialDataIfNeeded, getAllTasks, addTask,
    updateTaskStatus, deleteTask, getTasksByStatus, getTaskCountByStatus,
    clearAllTasks, closeDatabase.
-/
import Mathlib

namespace BugGang

/-- Task status: the literal strings "To Do" / "In Progress" / "Completed"
of the source, as an enumeration. -/
inductive Status where
  | toDo
  | inProgress
  | completed
deriving DecidableEq, Repr

/-- A task record: `interface Task { id: number; title: string; status: ... }`. -/
structure Task where
  id : Nat
  title : String
  status : Status
deriving DecidableEq, Repr

/-- Model of `const COLUMNS: Task['status'][] = ['To Do', 'In Progress', 'Completed']`. -/
def COLUMNS : List Status := [Status.toDo, Status.inProgress, Status.completed]

/-- ASCII whitespace, the characters JS `String.prototype.trim` removes that
can occur in these titles. -/
def isWs (c : Char) : Bool := c = ' ' || c = '\t' || c = '\n' || c = '\r'

/-- JS `title.trim()`: remove leading and trailing whitespace. Defined over
the character data so it is executable in proofs. -/
def jsTrim (s : String) : String :=
  ⟨(((s.data.dropWhile isWs).reverse).dropWhile isWs).reverse⟩

namespace Store

/-- The `initialTasks` constant of tasks.tsx. -/
def initialTasks : List Task :=
  [ ⟨1, "Plan weekly meal prep", Status.toDo⟩,
    ⟨2, "Debug ant trail AI", Status.inProgress⟩,
    ⟨3, "Send out team retrospective summary", Status.completed⟩,
    ⟨4, "Buy more honey dew drops", Status.toDo⟩ ]

/-- The `addTask` closure of tasks.tsx:
`if (newTaskTitle.trim()) { setTasks([...tasks, {id: Date.now(), title: newTaskTitle.trim(), status: 'To Do'}]) }`.
`Date.now()` is the ambient clock, passed in as `now`; the truthiness test on
the trimmed string is the nonemptiness test. -/
def addTask (tasks : List Task) (now : Nat) (newTaskTitle : String) : List Task :=
  if jsTrim newTaskTitle ≠ "" then
    tasks ++ [⟨now, jsTrim newTaskTitle, Status.toDo⟩]
  else
    tasks

/-- The `moveTask` closure of tasks.tsx:
`setTasks(tasks.map(task => task.id === taskId ? { ...task, status: newStatus } : task))`. -/
def moveTask (tasks : List Task) (taskId : Nat) (newStatus : Status) : List Task :=
  tasks.map (fun task => if task.id = taskId then { task with status := newStatus } else task)

/-- The `groupedTasks` memo of tasks.tsx: for each status in `COLUMNS`,
`tasks.filter(task => task.status === status)`. -/
def groupedTasks (tasks : List Task) (status : Status) : List Task :=
  tasks.filter (fun task => task.status = status)

/-- Model of `COLUMNS.indexOf(task.status)` in the release handler. -/
def statusIndex (s : Status) : Nat := COLUMNS.indexOf s

/-- The index computation of `onPanResponderRelease` (lines 107-120 of
tasks.tsx), for a release displacement `dx`:
`let newIndex = currentIndex; if (dx > 50 && currentIndex < COLUMNS.length - 1) newIndex = currentIndex + 1; else if (dx < -50 && currentIndex > 0) newIndex = currentIndex - 1;` -/
def releaseNewIndex (s : Status) (dx : Int) : Nat :=
  let currentIndex := statusIndex s
  if 50 < dx ∧ currentIndex < COLUMNS.length - 1 then currentIndex + 1
  else if dx < -50 ∧ 0 < currentIndex then currentIndex - 1
  else currentIndex

/-- The transition emitted by `onPanResponderRelease`: under
`if (Math.abs(gestureState.dx) > 50)`, when `newIndex !== currentIndex` the
handler calls `moveTask(task.id, COLUMNS[newIndex])`; otherwise no transition
is emitted. `some s'` models the emitted `moveTask` target status. -/
def releaseTransition (s : Status) (dx : Int) : Option Status :=
  if 50 < dx.natAbs then
    let currentIndex := statusIndex s
    let newIndex := releaseNewIndex s dx
    if newIndex ≠ currentIndex then COLUMNS.get? newIndex else none
  else
    none

end Store

namespace SQLiteService

/-- The `tasks` table: rows in id order together with the AUTOINCREMENT
counter that yields `lastInsertRowId` for the next insert. -/
structure Table where
  rows : List Task
  nextId : Nat
deriving DecidableEq, Repr

/-- The service's `private database` field: `some tbl` models an open handle
on a table, `null` is `none`. -/
abbrev Conn := Option Table

/-- Errors thrown inside the adapter: the `Database not initialized` throw and
any throw from the underlying engine call. -/
inductive AdapterError where
  | notInitialized
  | engineFailure
deriving DecidableEq, Repr

/-- The record type of `getTaskCountByStatus`:
`{'To Do': n, 'In Progress': m, 'Completed': k}`. -/
structure Counts where
  toDo : Nat
  inProgress : Nat
  completed : Nat
deriving DecidableEq, Repr

/-- Model of `INSERT INTO tasks (title, status) VALUES (?, ?)`: append a row under the
fresh AUTOINCREMENT id; the second component is `result.lastInsertRowId`. -/
def insertRow (tbl : Table) (title : String) (status : Status) : Table × Nat :=
  ({ rows := tbl.rows ++ [⟨tbl.nextId, title, status⟩], nextId := tbl.nextId + 1 },
   tbl.nextId)

/-- The `INITIAL_TASKS` constant of SQLiteService.ts (title, status pairs). -/
def INITIAL_TASKS : List (String × Status) :=
  [ ("Plan weekly meal prep", Status.toDo),
    ("Debug ant trail AI", Status.inProgress),
    ("Send out team retrospective summary", Status.completed),
    ("Buy more honey dew drops", Status.toDo) ]

/-- Try-block body of `getAllTasks`: the not-initialized throw, then
`SELECT * FROM tasks ORDER BY id` (rows are kept in id order). `fail` models
the underlying engine call throwing. -/
def getAllTasksRaw (conn : Conn) (fail : Bool) : Except AdapterError (List Task) :=
  match conn with
  | none => .error .notInitialized
  | some tbl => if fail then .error .engineFailure else .ok tbl.rows

/-- The full `getAllTasks` with its catch: any throw is converted to `[]`. -/
def getAllTasks (conn : Conn) (fail : Bool) : Except AdapterError (List Task) :=
  match getAllTasksRaw conn fail with
  | .ok ts => .ok ts
  | .error _ => .ok []

/-- Try-block body of the adapter's `addTask(title, status = 'To Do')`: insert
the row, then return the new Task when `result.lastInsertRowId` is truthy,
`null` otherwise. -/
def addTaskRaw (conn : Conn) (fail : Bool) (title : String) (status : Status) :
    Except AdapterError (Table × Option Task) :=
  match conn with
  | none => .error .notInitialized
  | some tbl =>
    if fail then .error .engineFailure
    else
      let res := insertRow tbl title status
      if res.2 ≠ 0 then .ok (res.1, some ⟨res.2, title, status⟩)
      else .ok (res.1, none)

/-- The adapter's `addTask` with its catch: any throw is converted to `null`
(and leaves the table as it was). -/
def addTask (conn : Conn) (fail : Bool) (title : String) (status : Status) :
    Conn × Except AdapterError (Option Task) :=
  match addTaskRaw conn fail title status with
  | .ok (tbl, t) => (some tbl, .ok t)
  | .error _ => (conn, .ok none)

/-- Try-block body of `updateTaskStatus`: `UPDATE tasks SET status = ? WHERE
id = ?`, then `result.changes > 0`. -/
def updateTaskStatusRaw (conn : Conn) (fail : Bool) (taskId : Nat) (status : Status) :
    Except AdapterError (Table × Bool) :=
  match conn with
  | none => .error .notInitialized
  | some tbl =>
    if fail then .error .engineFailure
    else
      let newRows := tbl.rows.map
        (fun r => if r.id = taskId then { r with status := status } else r)
      .ok ({ tbl with rows := newRows },
           decide (0 < (tbl.rows.filter (fun r => r.id = taskId)).length))

/-- The full `updateTaskStatus` with its catch: any throw is converted to `false`. -/
def updateTaskStatus (conn : Conn) (fail : Bool) (taskId : Nat) (status : Status) :
    Conn × Except AdapterError Bool :=
  match updateTaskStatusRaw conn fail taskId status with
  | .ok (tbl, b) => (some tbl, .ok b)
  | .error _ => (conn, .ok false)

/-- Try-block body of `deleteTask`: `DELETE FROM tasks WHERE id = ?`, then
`result.changes > 0`. -/
def deleteTaskRaw (conn : Conn) (fail : Bool) (taskId : Nat) :
    Except AdapterError (Table × Bool) :=
  match conn with
  | none => .error .notInitialized
  | some tbl =>
    if fail then .error .engineFailure
    else
      .ok ({ tbl with rows := tbl.rows.filter (fun r => r.id ≠ taskId) },
           decide (0 < (tbl.rows.filter (fun r => r.id = taskId)).length))

/-- The full `deleteTask` with its catch: any throw is converted to `false`. -/
def deleteTask (conn : Conn) (fail : Bool) (taskId : Nat) :
    Conn × Except AdapterError Bool :=
  match deleteTaskRaw conn fail taskId with
  | .ok (tbl, b) => (some tbl, .ok b)
  | .error _ => (conn, .ok false)

/-- Try-block body of `getTasksByStatus`:
`SELECT * FROM tasks WHERE status = ? ORDER BY id`. -/
def getTasksByStatusRaw (conn : Conn) (fail : Bool) (status : Status) :
    Except AdapterError (List Task) :=
  match conn with
  | none => .error .notInitialized
  | some tbl =>
    if fail then .error .engineFailure
    else .ok (tbl.rows.filter (fun r => r.status = status))

/-- The full `getTasksByStatus` with its catch: any throw is converted to `[]`. -/
def getTasksByStatus (conn : Conn) (fail : Bool) (status : Status) :
    Except AdapterError (List Task) :=
  match getTasksByStatusRaw conn fail status with
  | .ok ts => .ok ts
  | .error _ => .ok []

/-- Rows currently in a given status (the per-status `COUNT(*)`). -/
def countFor (tbl : Table) (s : Status) : Nat :=
  (tbl.rows.filter (fun r => r.status = s)).length

/-- Try-block body of `getTaskCountByStatus`: `SELECT status, COUNT(*) ...
GROUP BY status`, poured over the all-zero record (absent statuses stay 0). -/
def getTaskCountByStatusRaw (conn : Conn) (fail : Bool) :
    Except AdapterError Counts :=
  match conn with
  | none => .error .notInitialized
  | some tbl =>
    if fail then .error .engineFailure
    else .ok ⟨countFor tbl Status.toDo, countFor tbl Status.inProgress,
              countFor tbl Status.completed⟩

/-- The full `getTaskCountByStatus` with its catch: any throw is converted to the
all-zero record. -/
def getTaskCountByStatus (conn : Conn) (fail : Bool) :
    Except AdapterError Counts :=
  match getTaskCountByStatusRaw conn fail with
  | .ok c => .ok c
  | .error _ => .ok ⟨0, 0, 0⟩

/-- Try-block body of `clearAllTasks`: `DELETE FROM tasks`, then `true`. -/
def clearAllTasksRaw (conn : Conn) (fail : Bool) :
    Except AdapterError (Table × Bool) :=
  match conn with
  | none => .error .notInitialized
  | some tbl =>
    if fail then .error .engineFailure
    else .ok ({ tbl with rows := [] }, true)

/-- The full `clearAllTasks` with its catch: any throw is converted to `false`. -/
def clearAllTasks (conn : Conn) (fail : Bool) : Conn × Except AdapterError Bool :=
  match clearAllTasksRaw conn fail with
  | .ok (tbl, b) => (some tbl, .ok b)
  | .error _ => (conn, .ok false)

/-- The seeding loop of `seedInitialDataIfNeeded`: insert `INITIAL_TASKS`
one by one, in order. -/
def seedRows (tbl : Table) : Table :=
  INITIAL_TASKS.foldl (fun t p => (insertRow t p.1 p.2).1) tbl

/-- Model of `seedInitialDataIfNeeded`: the not-initialized throw sits before the try,
so it propagates; inside the try the row count is taken and the seed loop runs
only when it is zero; the catch rethrows, so engine failures propagate too. -/
def seedInitialDataIfNeeded (conn : Conn) (fail : Bool) :
    Conn × Except AdapterError Unit :=
  match conn with
  | none => (none, .error .notInitialized)
  | some tbl =>
    if fail then (some tbl, .error .engineFailure)
    else if tbl.rows.length = 0 then (some (seedRows tbl), .ok ())
    else (some tbl, .ok ())

/-- Model of `initializeDatabase`: open or create the database file (`disk`, `none`
when no file exists yet), then `CREATE TABLE IF NOT EXISTS` — existing rows
are untouched and no seeding happens; on an engine throw the error propagates
and `this.database` keeps its previous value. -/
def initializeDatabase (prev : Conn) (disk : Option Table) (fail : Bool) :
    Conn × Except AdapterError Table :=
  if fail then (prev, .error .engineFailure)
  else
    let tbl := disk.getD { rows := [], nextId := 1 }
    (some tbl, .ok tbl)

/-- Model of `closeDatabase`: when a handle exists, `closeAsync()` then
`this.database = null`; a throw from `closeAsync` is caught after the
assignment is skipped, so the handle survives a failed close. -/
def closeDatabase (conn : Conn) (fail : Bool) : Conn :=
  match conn with
  | none => none
  | some tbl => if fail then some tbl else none

end SQLiteService

namespace Store

theorem statusIndex_toDo : statusIndex Status.toDo = 0 := by decide

theorem statusIndex_inProgress : statusIndex Status.inProgress = 1 := by decide

theorem statusIndex_completed : statusIndex Status.completed = 2 := by decide

/-- C1 (amended): if the title is empty/whitespace after trimming, `addTask`
leaves the task list unchanged; otherwise it appends exactly one new task,
carrying the trimmed title and status To Do, leaving all existing tasks
unchanged — and, provided the creation timestamp `Date.now()` differs from
every existing id, the new task's id is fresh. -/
theorem addTask_contract (tasks : List Task) (now : Nat) (title : String) :
    (jsTrim title = "" → addTask tasks now title = tasks) ∧
    (jsTrim title ≠ "" →
      addTask tasks now title = tasks ++ [⟨now, jsTrim title, Status.toDo⟩]) ∧
    (jsTrim title ≠ "" → (∀ t ∈ tasks, t.id ≠ now) →
      ∀ t ∈ tasks, t.id ≠ (Task.mk now (jsTrim title) Status.toDo).id) := by
  refine ⟨fun h => ?_, fun h => ?_, fun _ hfresh t ht => hfresh t ht⟩
  · simp [addTask, h]
  · simp [addTask, h]

/-- Witness for C1: a concrete valid title is appended with status To Do and a
fresh id, and a whitespace-only title leaves the store unchanged. -/
theorem addTask_contract_witness :
    addTask initialTasks 99 " water the anthill " =
      initialTasks ++ [⟨99, "water the anthill", Status.toDo⟩] ∧
    addTask initialTasks 99 "   " = initialTasks := by
  constructor
  · have h := (addTask_contract initialTasks 99 " water the anthill ").2.1 (by decide)
    simpa using h
  · exact (addTask_contract initialTasks 99 "   ").1 (by decide)

/-- C1 counterexample: the id of the created task is `Date.now()`, which the
code never compares against existing ids — with a store holding a task of
id 5 and a clock reading 5, the appended task duplicates an existing id. -/
theorem addTask_id_collision :
    addTask [⟨5, "existing", Status.toDo⟩] 5 "new task" =
      [⟨5, "existing", Status.toDo⟩, ⟨5, "new task", Status.toDo⟩] ∧
    (5 : Nat) ∈ ([⟨5, "existing", Status.toDo⟩] : List Task).map Task.id := by
  constructor
  · decide
  · decide

/-- C2 (amended): the release threshold is strict — a displacement of absolute
value at most 50 (so also exactly 50) emits no transition; a displacement of
absolute value above 50, on a task not at the clamped boundary in its
direction, emits exactly one transition of one status-index step in the
direction of its sign. -/
theorem releaseTransition_toDo (dx : Int) :
    releaseTransition Status.toDo dx =
      if 50 < dx then some Status.inProgress else none := by
  by_cases h1 : 50 < dx
  · have ha : 50 < dx.natAbs := by omega
    simp [releaseTransition, releaseNewIndex, statusIndex_toDo, COLUMNS, ha, h1]
  · by_cases h2 : dx < -50
    · have ha : 50 < dx.natAbs := by omega
      simp [releaseTransition, releaseNewIndex, statusIndex_toDo, COLUMNS, ha, h1, h2]
    · have ha : ¬ 50 < dx.natAbs := by omega
      simp [releaseTransition, ha, h1]

theorem releaseTransition_inProgress (dx : Int) :
    releaseTransition Status.inProgress dx =
      if 50 < dx then some Status.completed
      else if dx < -50 then some Status.toDo
      else none := by
  by_cases h1 : 50 < dx
  · have ha : 50 < dx.natAbs := by omega
    simp [releaseTransition, releaseNewIndex, statusIndex_inProgress, COLUMNS, ha, h1]
  · by_cases h2 : dx < -50
    · have ha : 50 < dx.natAbs := by omega
      simp [releaseTransition, releaseNewIndex, statusIndex_inProgress, COLUMNS, ha, h1, h2]
    · have ha : ¬ 50 < dx.natAbs := by omega
      simp [releaseTransition, ha, h1, h2]

theorem releaseTransition_completed (dx : Int) :
    releaseTransition Status.completed dx =
      if dx < -50 then some Status.inProgress else none := by
  by_cases h1 : 50 < dx
  · have ha : 50 < dx.natAbs := by omega
    have h2 : ¬ dx < -50 := by omega
    simp [releaseTransition, releaseNewIndex, statusIndex_completed, COLUMNS, ha, h1, h2]
  · by_cases h2 : dx < -50
    · have ha : 50 < dx.natAbs := by omega
      simp [releaseTransition, releaseNewIndex, statusIndex_completed, COLUMNS, ha, h1, h2]
    · have ha : ¬ 50 < dx.natAbs := by omega
      simp [releaseTransition, ha, h2]

/-- C2 (amended): the release threshold is strict — a displacement of absolute
value at most 50 (so also exactly 50) emits no transition; a displacement of
absolute value above 50, on a task not at the clamped boundary in its
direction, emits exactly one transition of one status-index step in the
direction of its sign. -/
theorem gesture_threshold (s : Status) (dx : Int) :
    (dx.natAbs ≤ 50 → releaseTransition s dx = none) ∧
    (50 < dx → statusIndex s < 2 →
      ∃ s', releaseTransition s dx = some s' ∧ statusIndex s' = statusIndex s + 1) ∧
    (dx < -50 → 0 < statusIndex s →
      ∃ s', releaseTransition s dx = some s' ∧ statusIndex s' + 1 = statusIndex s) := by
  cases s
  · refine ⟨fun h => ?_, fun h1 _ => ?_, fun h1 h2 => absurd h2 (by decide)⟩
    · rw [releaseTransition_toDo, if_neg (by omega)]
    · exact ⟨Status.inProgress, by rw [releaseTransition_toDo, if_pos h1], by decide⟩
  · refine ⟨fun h => ?_, fun h1 _ => ?_, fun h1 _ => ?_⟩
    · rw [releaseTransition_inProgress, if_neg (by omega), if_neg (by omega)]
    · exact ⟨Status.completed, by rw [releaseTransition_inProgress, if_pos h1], by decide⟩
    · refine ⟨Status.toDo, ?_, by decide⟩
      rw [releaseTransition_inProgress, if_neg (by omega), if_pos h1]
  · refine ⟨fun h => ?_, fun h1 h2 => absurd h2 (by decide), fun h1 _ => ?_⟩
    · rw [releaseTransition_completed, if_neg (by omega)]
    · exact ⟨Status.inProgress, by rw [releaseTransition_completed, if_pos h1], by decide⟩

/-- Witness for C2: at 49 units nothing is emitted; at 51 units a To Do task
moves one step to In Progress, and at -51 an In Progress task moves back. -/
theorem gesture_threshold_witness :
    releaseTransition Status.toDo 49 = none ∧
    releaseTransition Status.toDo 51 = some Status.inProgress ∧
    releaseTransition Status.inProgress (-51) = some Status.toDo := by
  refine ⟨(gesture_threshold Status.toDo 49).1 (by decide), ?_, ?_⟩
  · obtain ⟨s', hs', hidx⟩ :=
      (gesture_threshold Status.toDo 51).2.1 (by decide) (by decide)
    have hs : s' = Status.inProgress := by
      cases s' <;> first | rfl | (exfalso; revert hidx; decide)
    rw [hs] at hs'
    exact hs'
  · obtain ⟨s', hs', hidx⟩ :=
      (gesture_threshold Status.inProgress (-51)).2.2 (by decide) (by decide)
    have hs : s' = Status.toDo := by
      cases s' <;> first | rfl | (exfalso; revert hidx; decide)
    rw [hs] at hs'
    exact hs'

/-- C2 counterexample: a displacement of exactly 50 is not below 50 and the
task is not at the boundary in its direction, yet no transition is emitted —
the code tests `Math.abs(gestureState.dx) > 50` strictly. -/
theorem gesture_threshold_boundary :
    ¬ ((50 : Int).natAbs < 50) ∧
    statusIndex Status.toDo < 2 ∧
    releaseTransition Status.toDo 50 = none := by
  refine ⟨by decide, by decide, by decide⟩

/-- C3: a positive displacement beyond the threshold on a Completed task emits
no transition, a negative one on a To Do task emits no transition, and the
resulting status-index always stays below `COLUMNS.length`, so the
`COLUMNS[newIndex]` lookup is always defined. -/
theorem gesture_clamping (s : Status) (dx : Int) :
    (50 < dx → s = Status.completed → releaseTransition s dx = none) ∧
    (dx < -50 → s = Status.toDo → releaseTransition s dx = none) ∧
    releaseNewIndex s dx < COLUMNS.length ∧
    (COLUMNS.get? (releaseNewIndex s dx)).isSome = true := by
  refine ⟨fun h hs => ?_, fun h hs => ?_, ?_, ?_⟩
  · subst hs
    rw [releaseTransition_completed, if_neg (by omega)]
  · subst hs
    rw [releaseTransition_toDo, if_neg (by omega)]
  · cases s <;> simp [releaseNewIndex, statusIndex_toDo, statusIndex_inProgress,
      statusIndex_completed, COLUMNS] <;> split_ifs <;> decide
  · cases s <;> simp [releaseNewIndex, statusIndex_toDo, statusIndex_inProgress,
      statusIndex_completed, COLUMNS] <;> split_ifs <;> decide

/-- Witness for C3: at Completed a +60 release is discarded, at To Do a -60
release is discarded, and the computed index for To Do at +60 is in range. -/
theorem gesture_clamping_witness :
    releaseTransition Status.completed 60 = none ∧
    releaseTransition Status.toDo (-60) = none ∧
    releaseNewIndex Status.toDo 60 < COLUMNS.length := by
  refine ⟨(gesture_clamping Status.completed 60).1 (by decide) rfl,
          (gesture_clamping Status.toDo (-60)).2.1 (by decide) rfl,
          (gesture_clamping Status.toDo 60).2.2.1⟩

theorem grouped_flatten_perm (tasks : List Task) :
    ((COLUMNS.map (groupedTasks tasks)).flatten).Perm tasks := by
  induction tasks with
  | nil => simp [groupedTasks, COLUMNS]
  | cons t ts ih =>
    simp only [groupedTasks, COLUMNS, List.map_cons, List.map_nil,
      List.flatten_cons, List.flatten_nil, List.append_nil] at ih ⊢
    cases ht : t.status
    · simp only [List.filter_cons, ht]
      simp
      exact ih
    · simp only [List.filter_cons, ht]
      simp
      exact List.Perm.trans List.perm_middle (ih.cons t)
    · simp only [List.filter_cons, ht]
      simp
      rw [← List.append_assoc]
      refine List.Perm.trans List.perm_middle ?_
      refine List.Perm.cons t ?_
      rw [List.append_assoc]
      exact ih

/-- C4: `groupedTasks` is a partition: the three groups are pairwise disjoint,
their concatenation in column order is a permutation of the full task list
(no duplication or loss), and each group is a subsequence of the full list,
so it keeps the original relative order. Proven for every task list, hence in
particular for every list reachable by adds and status transitions. -/
theorem groupedTasks_partition (tasks : List Task) :
    (∀ s s', s ≠ s' → ∀ t, t ∈ groupedTasks tasks s → t ∉ groupedTasks tasks s') ∧
    ((COLUMNS.map (groupedTasks tasks)).flatten).Perm tasks ∧
    (∀ s, (groupedTasks tasks s).Sublist tasks) := by
  refine ⟨fun s s' hss t hts hts' => ?_, grouped_flatten_perm tasks,
          fun s => List.filter_sublist tasks⟩
  have h1 : t.status = s := by
    have := (List.mem_filter.mp hts).2
    simpa using this
  have h2 : t.status = s' := by
    have := (List.mem_filter.mp hts').2
    simpa using this
  exact hss (h1 ▸ h2)

/-- Witness for C4: on the initial tasks, the To Do group and the Completed
group are disjoint (the first task is only in the former), the concatenated
groups are a permutation of the list, and the To Do group is a subsequence. -/
theorem groupedTasks_partition_witness :
    (Task.mk 1 "Plan weekly meal prep" Status.toDo) ∉
      groupedTasks initialTasks Status.completed ∧
    ((COLUMNS.map (groupedTasks initialTasks)).flatten).Perm initialTasks ∧
    (groupedTasks initialTasks Status.toDo).Sublist initialTasks := by
  refine ⟨(groupedTasks_partition initialTasks).1 Status.toDo Status.completed
            (by decide) _ (by decide),
          (groupedTasks_partition initialTasks).2.1,
          (groupedTasks_partition initialTasks).2.2 Status.toDo⟩

/-- C5: `moveTask` frame condition — when no task carries the id it is a
no-op; length and positions (hence order) are preserved; a task at a position
whose id does not match is kept entirely; a task whose id matches keeps its id
and title and only its status is replaced. -/
theorem moveTask_frame (tasks : List Task) (taskId : Nat) (newStatus : Status) :
    ((∀ t ∈ tasks, t.id ≠ taskId) → moveTask tasks taskId newStatus = tasks) ∧
    (moveTask tasks taskId newStatus).length = tasks.length ∧
    (∀ i t, tasks.get? i = some t → t.id ≠ taskId →
      (moveTask tasks taskId newStatus).get? i = some t) ∧
    (∀ i t, tasks.get? i = some t → t.id = taskId →
      (moveTask tasks taskId newStatus).get? i =
        some (Task.mk t.id t.title newStatus)) := by
  refine ⟨fun h => ?_, ?_, fun i t hget hne => ?_, fun i t hget heq => ?_⟩
  · have hmap : tasks.map
        (fun task => if task.id = taskId then { task with status := newStatus } else task) =
        tasks.map id :=
      List.map_congr_left (fun a ha => by simp [h a ha])
    simpa [moveTask] using hmap
  · simp [moveTask]
  · rw [moveTask, List.get?_map, hget]
    simp [hne]
  · rw [moveTask, List.get?_map, hget]
    simp [heq]

/-- Witness for C5: on the initial tasks, moving the unknown id 42 is a no-op,
and moving id 2 to Completed keeps position 0 untouched while position 1 keeps
its id and title and changes only its status. -/
theorem moveTask_frame_witness :
    moveTask initialTasks 42 Status.completed = initialTasks ∧
    (moveTask initialTasks 2 Status.completed).get? 0 =
      some (Task.mk 1 "Plan weekly meal prep" Status.toDo) ∧
    (moveTask initialTasks 2 Status.completed).get? 1 =
      some (Task.mk 2 "Debug ant trail AI" Status.completed) := by
  refine ⟨(moveTask_frame initialTasks 42 Status.completed).1 (by decide), ?_, ?_⟩
  · exact (moveTask_frame initialTasks 2 Status.completed).2.2.1 0
      (Task.mk 1 "Plan weekly meal prep" Status.toDo) (by decide) (by decide)
  · exact (moveTask_frame initialTasks 2 Status.completed).2.2.2 1
      (Task.mk 2 "Debug ant trail AI" Status.inProgress) (by decide) (by decide)

/-- C8: the example scenario — from the four initial tasks, after
`moveTask 2 Completed` the Completed group lists id 2's task before id 3's
(original list order), with titles "Debug ant trail AI" then "Send out team
retrospective summary", and the per-status counts are 2 / 0 / 2. -/
theorem example_scenario :
    (groupedTasks (moveTask initialTasks 2 Status.completed) Status.completed).map
        Task.title =
      ["Debug ant trail AI", "Send out team retrospective summary"] ∧
    (groupedTasks (moveTask initialTasks 2 Status.completed) Status.completed).map
        Task.id = [2, 3] ∧
    (groupedTasks (moveTask initialTasks 2 Status.completed) Status.toDo).length = 2 ∧
    (groupedTasks (moveTask initialTasks 2 Status.completed) Status.inProgress).length
      = 0 ∧
    (groupedTasks (moveTask initialTasks 2 Status.completed) Status.completed).length
      = 2 := by
  refine ⟨by decide, by decide, by decide, by decide, by decide⟩

end Store

namespace SQLiteService

/-- C6 (amended): a successful `closeDatabase` nulls the handle, and in the
Uninitialized/Closed state every data operation's try-body raises
NotInitialized; `seedInitialDataIfNeeded` propagates that error to its caller,
while the other operations catch it and return their safe defaults instead of
failing. -/
theorem notInitialized_state_machine (fail : Bool) (title : String)
    (status : Status) (taskId : Nat) (tbl : Table) :
    closeDatabase (some tbl) false = none ∧
    getAllTasksRaw none fail = .error .notInitialized ∧
    addTaskRaw none fail title status = .error .notInitialized ∧
    updateTaskStatusRaw none fail taskId status = .error .notInitialized ∧
    deleteTaskRaw none fail taskId = .error .notInitialized ∧
    getTasksByStatusRaw none fail status = .error .notInitialized ∧
    getTaskCountByStatusRaw none fail = .error .notInitialized ∧
    clearAllTasksRaw none fail = .error .notInitialized ∧
    (seedInitialDataIfNeeded none fail).2 = .error .notInitialized ∧
    getAllTasks none fail = .ok [] ∧
    (addTask none fail title status).2 = .ok none ∧
    (updateTaskStatus none fail taskId status).2 = .ok false ∧
    (deleteTask none fail taskId).2 = .ok false ∧
    getTasksByStatus none fail status = .ok [] ∧
    getTaskCountByStatus none fail = .ok ⟨0, 0, 0⟩ ∧
    (clearAllTasks none fail).2 = .ok false := by
  exact ⟨rfl, rfl, rfl, rfl, rfl, rfl, rfl, rfl, rfl, rfl, rfl, rfl, rfl, rfl,
    rfl, rfl⟩

/-- C6 counterexample: after a successful close, `getAllTasks` does not fail —
its internal NotInitialized throw is caught and it returns `.ok []`, which is
not the `NotInitialized` error the claim requires. -/
theorem close_then_getAllTasks_no_error :
    closeDatabase (some (Table.mk [] 1)) false = none ∧
    getAllTasks none false = .ok [] ∧
    getAllTasks none false ≠ .error .notInitialized := by
  refine ⟨rfl, rfl, by simp [getAllTasks, getAllTasksRaw]⟩

/-- C7: safe-default propagation — under every persistence failure (no handle,
or the underlying engine call throwing) the catch blocks return the safe
defaults: empty lists for the selects, the all-zero record for the counts,
false for update/delete/clear, and null for insert. -/
theorem safe_default_propagation (conn : Conn) (fail : Bool) (title : String)
    (status : Status) (taskId : Nat) :
    conn = none ∨ fail = true →
      getAllTasks conn fail = .ok [] ∧
      getTasksByStatus conn fail status = .ok [] ∧
      getTaskCountByStatus conn fail = .ok ⟨0, 0, 0⟩ ∧
      (updateTaskStatus conn fail taskId status).2 = .ok false ∧
      (deleteTask conn fail taskId).2 = .ok false ∧
      (clearAllTasks conn fail).2 = .ok false ∧
      (addTask conn fail title status).2 = .ok none := by
  rintro (rfl | rfl)
  · exact ⟨rfl, rfl, rfl, rfl, rfl, rfl, rfl⟩
  · cases conn with
    | none => exact ⟨rfl, rfl, rfl, rfl, rfl, rfl, rfl⟩
    | some tbl => exact ⟨rfl, rfl, rfl, rfl, rfl, rfl, rfl⟩

/-- Witness for C7: concrete failures — closed handle on a select, and an
engine throw on an insert over a live table — yield the safe defaults. -/
theorem safe_default_propagation_witness :
    getAllTasks none false = .ok [] ∧
    (addTask (some (Table.mk [] 1)) true "x" Status.toDo).2 = .ok none := by
  refine ⟨(safe_default_propagation none false "x" Status.toDo 0 (Or.inl rfl)).1,
          (safe_default_propagation (some (Table.mk [] 1)) true "x" Status.toDo 0
            (Or.inr rfl)).2.2.2.2.2.2⟩

/-- C9: `seedInitialDataIfNeeded` seeds exactly when the table has zero rows,
inserting the four default tasks in their given order under consecutive fresh
ids; on a nonempty table it is a no-op; a second call right after a first one
inserts nothing; and `initializeDatabase` itself never seeds — it hands back
the opened table's rows unchanged. -/
theorem seed_if_empty_idempotent (tbl : Table) (disk : Table) (prev : Conn) :
    (tbl.rows = [] →
      seedInitialDataIfNeeded (some tbl) false =
        (some (Table.mk
          [ Task.mk tbl.nextId "Plan weekly meal prep" Status.toDo,
            Task.mk (tbl.nextId + 1) "Debug ant trail AI" Status.inProgress,
            Task.mk (tbl.nextId + 2) "Send out team retrospective summary"
              Status.completed,
            Task.mk (tbl.nextId + 3) "Buy more honey dew drops" Status.toDo ]
          (tbl.nextId + 4)), .ok ())) ∧
    (tbl.rows ≠ [] → seedInitialDataIfNeeded (some tbl) false = (some tbl, .ok ())) ∧
    (seedInitialDataIfNeeded (seedInitialDataIfNeeded (some tbl) false).1 false).1 =
      (seedInitialDataIfNeeded (some tbl) false).1 ∧
    (initializeDatabase prev (some disk) false).1 = some disk := by
  refine ⟨fun h => ?_, fun h => ?_, ?_, rfl⟩
  · simp [seedInitialDataIfNeeded, h, seedRows, INITIAL_TASKS, insertRow]
  · have hlen : ¬ tbl.rows.length = 0 := by
      simpa [List.length_eq_zero] using h
    simp [seedInitialDataIfNeeded, hlen]
  · by_cases h : tbl.rows = []
    · simp [seedInitialDataIfNeeded, h, seedRows, INITIAL_TASKS, insertRow]
    · have hlen : ¬ tbl.rows.length = 0 := by
        simpa [List.length_eq_zero] using h
      simp [seedInitialDataIfNeeded, hlen]

/-- Witness for C9: seeding the empty table inserts the four defaults in
order; seeding a nonempty table is a no-op; a repeated seed of the empty table
changes nothing further; initialize preserves a nonempty disk. -/
theorem seed_if_empty_idempotent_witness :
    seedInitialDataIfNeeded (some (Table.mk [] 1)) false =
      (some (Table.mk
        [ Task.mk 1 "Plan weekly meal prep" Status.toDo,
          Task.mk 2 "Debug ant trail AI" Status.inProgress,
          Task.mk 3 "Send out team retrospective summary" Status.completed,
          Task.mk 4 "Buy more honey dew drops" Status.toDo ] 5), .ok ()) ∧
    seedInitialDataIfNeeded (some (Table.mk [Task.mk 1 "x" Status.toDo] 2)) false =
      (some (Table.mk [Task.mk 1 "x" Status.toDo] 2), .ok ()) ∧
    (seedInitialDataIfNeeded
        (seedInitialDataIfNeeded (some (Table.mk [] 1)) false).1 false).1 =
      (seedInitialDataIfNeeded (some (Table.mk [] 1)) false).1 ∧
    (initializeDatabase none (some (Table.mk [Task.mk 1 "x" Status.toDo] 2)) false).1 =
      some (Table.mk [Task.mk 1 "x" Status.toDo] 2) := by
  refine ⟨?_, ?_, ?_, ?_⟩
  · have h := (seed_if_empty_idempotent (Table.mk [] 1) (Table.mk [] 1) none).1 rfl
    simpa using h
  · exact (seed_if_empty_idempotent (Table.mk [Task.mk 1 "x" Status.toDo] 2)
      (Table.mk [] 1) none).2.1 (by decide)
  · exact (seed_if_empty_idempotent (Table.mk [] 1) (Table.mk [] 1) none).2.2.1
  · exact (seed_if_empty_idempotent (Table.mk [] 1)
      (Table.mk [Task.mk 1 "x" Status.toDo] 2) none).2.2.2

/-- C10 (implicit): the persistence insert performs no validation — for every
title (the empty string included) and every caller-chosen status, `addTask`
writes the row as given and returns a task carrying exactly that title and
status under the fresh AUTOINCREMENT id. -/
theorem addTask_no_validation (tbl : Table) (title : String) (status : Status)
    (h : tbl.nextId ≠ 0) :
    addTask (some tbl) false title status =
      (some (Table.mk (tbl.rows ++ [Task.mk tbl.nextId title status])
        (tbl.nextId + 1)),
       .ok (some (Task.mk tbl.nextId title status))) := by
  simp [addTask, addTaskRaw, insertRow, h]

/-- Witness for C10: an empty-title row with status In Progress is durably
created — no ValidationError exists at the persistence interface. -/
theorem addTask_no_validation_witness :
    addTask (some (Table.mk [] 1)) false "" Status.inProgress =
      (some (Table.mk [Task.mk 1 "" Status.inProgress] 2),
       .ok (some (Task.mk 1 "" Status.inProgress))) := by
  have h := addTask_no_validation (Table.mk [] 1) "" Status.inProgress (by decide)
  simpa using h

end SQLiteService

end BugGang
